import Mathlib

/-!
Verification of the skintrackcb forecast-extraction and trend-classification
core against its natural-language specification.

Strings are shallowly embedded as `List Char`.  Python's `str.lower()` /
`str.upper()` / `\w` are modelled on the ASCII range (every keyword and
heading the source matches against is ASCII, and the claims quantify over
line-oriented forecast text).  Python `str.strip()` removes the six ASCII
whitespace characters.  All definitions are computable and are translated
from the repository's source files; the one definition translated from the
spec's words is marked as such.
-/

namespace Skintrack

/-- Program strings, embedded as lists of characters. -/
abbrev Str := List Char

/-- Shorthand to turn a Lean string literal into the embedded string type. -/
def str (s : String) : Str := s.toList

/-- ASCII lowercasing of one character (model of Python `str.lower` per char). -/
def lowerChar (c : Char) : Char :=
  if 'A' ≤ c ∧ c ≤ 'Z' then Char.ofNat (c.toNat + 32) else c

/-- ASCII uppercasing of one character (model of Python `str.upper` per char). -/
def upperChar (c : Char) : Char :=
  if 'a' ≤ c ∧ c ≤ 'z' then Char.ofNat (c.toNat - 32) else c

/-- Model of Python `str.lower()` (ASCII range). -/
def lowerStr (s : Str) : Str := s.map lowerChar

/-- Model of Python `str.upper()` (ASCII range). -/
def upperStr (s : Str) : Str := s.map upperChar

/-- The ASCII whitespace characters stripped by Python `str.strip()` and
matched by the regex class `\s`. -/
def isPySpace (c : Char) : Bool :=
  c = ' ' || c = '\t' || c = '\n' || c = '\r' || c = '\x0b' || c = '\x0c'

/-- Model of Python `str.strip()`. -/
def stripStr (s : Str) : Str :=
  ((s.dropWhile isPySpace).reverse.dropWhile isPySpace).reverse

/-- Model of Python's `needle in hay` substring test. -/
def containsStr : Str → Str → Bool
  | [], pat => pat.isEmpty
  | hay@(_ :: t), pat => pat.isPrefixOf hay || containsStr t pat

/-- `True` when any pattern of the list occurs in the text
(Python `any(p in text for p in pats)`). -/
def containsAnyOf (t : Str) (pats : List Str) : Bool :=
  pats.any (fun p => containsStr t p)

/-- ASCII decimal digit test (regex `\d` on the inputs in scope). -/
def isDigitChar (c : Char) : Bool := '0' ≤ c && c ≤ '9'

/-- Regex `\w` (word character), ASCII range. -/
def isWordChar (c : Char) : Bool :=
  isDigitChar c || ('a' ≤ c && c ≤ 'z') || ('A' ≤ c && c ≤ 'Z') || c = '_'

/-- Numeric value of a digit string (Python `int` on a `\d+` capture). -/
def natOfDigits (ds : Str) : Nat :=
  ds.foldl (fun n c => n * 10 + (c.toNat - 48)) 0

/-- Model of Python `text.split('\n')`: split on every newline, keeping
empty pieces (so the empty text yields one empty line). -/
def splitLines : Str → List Str
  | [] => [[]]
  | c :: cs =>
    if c = '\n' then [] :: splitLines cs
    else
      match splitLines cs with
      | [] => [[c]]
      | l :: ls => (c :: l) :: ls

/-- Model of Python `" ".join(xs)` (more generally `List.intercalate`). -/
def joinSpace (xs : List Str) : Str := List.intercalate (str " ") xs

/-- The aspect/elevation rose: an ordered mapping (Python dict) from the 8
compass aspects to an ordered mapping from the 3 elevation bands to booleans. -/
abbrev Rose := List (Str × List (Str × Bool))

/-- One all-false inner elevation record of the rose. -/
def emptyCell : List (Str × Bool) :=
  [(str "alpine", false), (str "treeline", false), (str "below_treeline", false)]

/-- `create_empty_rose` (identical in cbac_selenium_scraper.py:124 and
cbac_api_scraper.py:71): the 8 canonical aspects, all cells false. -/
def create_empty_rose : Rose :=
  [ (str "N", emptyCell), (str "NE", emptyCell), (str "E", emptyCell),
    (str "SE", emptyCell), (str "S", emptyCell), (str "SW", emptyCell),
    (str "W", emptyCell), (str "NW", emptyCell) ]

/-- A discrete avalanche problem as produced by the extractors. -/
structure AvalancheProblem where
  problem_number : Nat
  problem_type : Str
  likelihood : Str
  size : Str
  aspect_elevation_rose : Rose
  details : Option Str
  deriving Repr, DecidableEq

namespace CbacSeleniumScraper

/-! Embedding of `src/scraper/cbac_selenium_scraper.py`. -/

/-- `DANGER_MAP`, in the source's (Python dict insertion) order. -/
def DANGER_MAP : List (Str × Nat) :=
  [ (str "low", 1), (str "moderate", 2), (str "mod", 2),
    (str "considerable", 3), (str "cons", 3), (str "high", 4),
    (str "extreme", 5), (str "extr", 5) ]

/-- Regex `^\d\s*[-–]\s*\w+` matched at the start of a string
(the danger-rating token shape, e.g. `3 - Considerable`). -/
def matchDangerToken : Str → Bool
  | [] => false
  | c :: rest =>
    isDigitChar c &&
      (match rest.dropWhile isPySpace with
       | [] => false
       | d :: r2 =>
         (d = '-' || d = '–') &&
           (match r2.dropWhile isPySpace with
            | [] => false
            | w :: _ => isWordChar w))

/-- `re.search(r'(\d)\s*[-–]\s*\w+', text)`: the captured digit's value at
the leftmost position where the pattern matches, if any. -/
def searchDangerDigit : Str → Option Nat
  | [] => none
  | c :: rest =>
    if matchDangerToken (c :: rest) then some (c.toNat - 48)
    else searchDangerDigit rest

/-- `parse_danger_level` (cbac_selenium_scraper.py:103): leading-digit regex
search, then the `DANGER_MAP` word lookup, then the first character of the
stripped text as a digit, defaulting to 2 (the bare `except` branch). -/
def parse_danger_level (text : Str) : Nat :=
  match searchDangerDigit text with
  | some n => n
  | none =>
    let text_lower := lowerStr (stripStr text)
    match DANGER_MAP.find? (fun p => containsStr text_lower p.1) with
    | some p => p.2
    | none =>
      match stripStr text with
      | c :: _ => if isDigitChar c then c.toNat - 48 else 2
      | [] => 2

/-- State of the danger-section scan in `parse_page_text`
(the loop variables `in_danger_section` / `danger_section_done` and the
three danger integers). -/
structure DangerState where
  in_danger_section : Bool
  danger_section_done : Bool
  danger_alpine : Nat
  danger_treeline : Nat
  danger_btl : Nat
  deriving Repr, DecidableEq

/-- The initial danger-scan state (defaults 2 / 2 / 1). -/
def initDangerState : DangerState :=
  { in_danger_section := false, danger_section_done := false,
    danger_alpine := 2, danger_treeline := 2, danger_btl := 1 }

/-- `"AVALANCHE DANGER" in line.upper()`. -/
def isADHeading (line : Str) : Bool :=
  containsStr (upperStr line) (str "AVALANCHE DANGER")

/-- `"DANGER SCALE" in line.upper() or "AVALANCHE PROBLEMS" in line.upper()`. -/
def isClosingHeading (line : Str) : Bool :=
  containsStr (upperStr line) (str "DANGER SCALE") ||
    containsStr (upperStr line) (str "AVALANCHE PROBLEMS")

/-- The above-treeline marker: `"above treeline" in line_lower and "⇡" in line`.
The text test runs on the stripped, lowercased line, the glyph test on the
raw line, exactly as in the source. -/
def markerAbove (line : Str) : Bool :=
  containsStr (lowerStr (stripStr line)) (str "above treeline") &&
    containsStr line (str "⇡")

/-- The near-treeline marker: `"near treeline"` present while `"above"` and
`"below"` are absent (all on the stripped, lowercased line). -/
def markerNear (line : Str) : Bool :=
  containsStr (lowerStr (stripStr line)) (str "near treeline") &&
    !containsStr (lowerStr (stripStr line)) (str "above") &&
    !containsStr (lowerStr (stripStr line)) (str "below")

/-- The below-treeline marker: `"below treeline" in line_lower and "⇣" in line`. -/
def markerBelow (line : Str) : Bool :=
  containsStr (lowerStr (stripStr line)) (str "below treeline") &&
    containsStr line (str "⇣")

/-- The inner lookahead `for j in range(i+1, min(i+3, len(lines)))`: the first
of (at most) the next two lines whose stripped form matches the rating-token
regex. -/
def findRatingLine (window : List Str) : Option Str :=
  (window.map stripStr).find? matchDangerToken

/-- One iteration of the danger-section loop of `parse_page_text`
(cbac_selenium_scraper.py:153-192).  `window` is the list of (at most two)
lines following the current one. -/
def dangerStep (line : Str) (window : List Str) (s : DangerState) : DangerState :=
  if isADHeading line then
    { s with in_danger_section := true }
  else
    let s :=
      if s.in_danger_section && isClosingHeading line then
        { s with danger_section_done := true, in_danger_section := false }
      else s
    if s.in_danger_section && !s.danger_section_done then
      if markerAbove line then
        match findRatingLine window with
        | some nl => { s with danger_alpine := parse_danger_level nl }
        | none => s
      else if markerNear line then
        match findRatingLine window with
        | some nl => { s with danger_treeline := parse_danger_level nl }
        | none => s
      else if markerBelow line then
        match findRatingLine window with
        | some nl => { s with danger_btl := parse_danger_level nl }
        | none => s
      else s
    else s

/-- The danger-section scan over all lines, threading the state; each line's
lookahead window is the next two lines. -/
def dangerLoop : List Str → DangerState → DangerState
  | [], s => s
  | l :: rest, s => dangerLoop rest (dangerStep l (rest.take 2) s)

/-- The danger-rating extraction of `parse_page_text`, from the list of lines. -/
def parseDanger (lines : List Str) : DangerState :=
  dangerLoop lines initDangerState

/-- `re.match` of `PROBLEM\s*#?(\d+)[:\s]*(.+)?` (case-insensitive) against a
(stripped) line: the problem number and the optional trailing text capture. -/
def matchProblemHeader (s : Str) : Option (Nat × Option Str) :=
  if lowerStr (s.take 7) = str "problem" ∧ 7 ≤ s.length then
    let r1 := (s.drop 7).dropWhile isPySpace
    let r2 := match r1 with
              | '#' :: t => t
              | _ => r1
    let ds := r2.takeWhile isDigitChar
    if ds.isEmpty then none
    else
      let r4 := (r2.drop ds.length).dropWhile (fun c => c = ':' || isPySpace c)
      some (natOfDigits ds, if r4.isEmpty then none else some r4)
  else none

/-- Lookahead for the problem-type line (cbac_selenium_scraper.py:207-211):
the first of the next 4 lines that is nonempty, does not contain
`PROBLEM TYPE`, and mentions a problem-type keyword; its stripped text. -/
def findTypeLine (window : List Str) : Option Str :=
  (window.find? (fun l =>
      !(stripStr l).isEmpty &&
        !containsStr (upperStr l) (str "PROBLEM TYPE") &&
        containsAnyOf (lowerStr l)
          [str "slab", str "loose", str "cornice", str "glide"])).map stripStr

/-- The problem-type normalisation chain (cbac_selenium_scraper.py:213-233). -/
def normalize_problem_type (prob_type_text : Str) : Str :=
  let tl := lowerStr prob_type_text
  if containsStr tl (str "persistent") && containsStr tl (str "slab") then str "persistent_slab"
  else if containsStr tl (str "wind") && containsStr tl (str "slab") then str "wind_slab"
  else if containsStr tl (str "storm") && containsStr tl (str "slab") then str "storm_slab"
  else if containsStr tl (str "wet") && containsStr tl (str "slab") then str "wet_slab"
  else if containsStr tl (str "loose") && containsStr tl (str "dry") then str "loose_dry"
  else if containsStr tl (str "loose") && containsStr tl (str "wet") then str "loose_wet"
  else if containsStr tl (str "cornice") then str "cornice"
  else if containsStr tl (str "glide") then str "glide"
  else if containsStr tl (str "slab") then str "persistent_slab"
  else str "unknown"

/-- Header/label words skipped while accumulating problem details. -/
def detailHeaderWords : List Str :=
  [str "PROBLEM TYPE", str "ASPECT", str "LIKELIHOOD", str "SIZE", str "ELEVATION"]

/-- The bare compass tokens skipped while accumulating problem details,
in the source's list order. -/
def compassTokens : List Str :=
  [str "N", str "E", str "S", str "W", str "NE", str "NW", str "SE", str "SW"]

/-- The size/likelihood scale words whose line-initial (case-insensitive)
occurrence is skipped while accumulating problem details. -/
def scaleWords : List Str :=
  [str "Small", str "Large", str "Very Large", str "Historic", str "Unlikely",
   str "Possible", str "Likely", str "Very Likely", str "Certain"]

/-- `re.match` of the scale-word alternation: some scale word is a
case-insensitive prefix of the line. -/
def startsWithScaleWord (ls : Str) : Bool :=
  scaleWords.any (fun w => (lowerStr w).isPrefixOf (lowerStr ls))

/-- The details-accumulation loop (cbac_selenium_scraper.py:247-270) over the
(at most 49) lines after a problem header; `inD` is `in_details` and `d`
the accumulated string. -/
def detailsLoop : List Str → Bool → Str → Str
  | [], _, d => d
  | l :: rest, inD, d =>
    let ls := stripStr l
    if containsAnyOf (upperStr ls) detailHeaderWords then detailsLoop rest inD d
    else if compassTokens.contains ls then detailsLoop rest inD d
    else if startsWithScaleWord ls then detailsLoop rest inD d
    else if containsStr ls (str "Above Treeline") || containsStr ls (str "Near Treeline")
            || containsStr ls (str "Below Treeline") then detailsLoop rest inD d
    else if (matchProblemHeader ls).isSome then d
    else if ls.length > 50 && !inD then detailsLoop rest true ls
    else if inD && ls.length > 20 then detailsLoop rest inD (d ++ str " " ++ ls)
    else if inD && ls.length < 10 then d
    else detailsLoop rest inD d

/-- Assembly of one problem record from a matched `PROBLEM #n` header line;
`rest` is the list of lines after the header. -/
def buildProblem (prob_num : Nat) (g2 : Option Str) (rest : List Str) : AvalancheProblem :=
  let ptt0 := g2.getD []
  let prob_type_text :=
    if ptt0.isEmpty || (stripStr ptt0).isEmpty then (findTypeLine (rest.take 4)).getD ptt0
    else ptt0
  let details := detailsLoop (rest.take 49) false []
  { problem_number := prob_num
    problem_type := normalize_problem_type prob_type_text
    likelihood := str "Possible"
    size := str "D2"
    aspect_elevation_rose := create_empty_rose
    details := if details.isEmpty then none else some (details.take 1000) }

/-- The problem-scan `while` loop (cbac_selenium_scraper.py:198-281): every
line whose stripped form matches the problem-header pattern yields one
problem, in order. -/
def problemsLoop : List Str → List AvalancheProblem
  | [] => []
  | l :: rest =>
    match matchProblemHeader (stripStr l) with
    | none => problemsLoop rest
    | some (num, g2) => buildProblem num g2 rest :: problemsLoop rest

/-- Continuation lines appended to the bottom line
(cbac_selenium_scraper.py:291-296): lines longer than 20 characters keep the
scan alive and are appended unless they carry a heading word; a short or
empty line stops. -/
def extendBottom : List Str → Str
  | [] => []
  | l :: rest =>
    let ls := stripStr l
    if !ls.isEmpty && ls.length > 20 then
      (if !containsAnyOf (upperStr l) [str "FORECAST", str "AVALANCHE", str "PROBLEM"]
       then str " " ++ ls else []) ++ extendBottom rest
    else []

/-- Scan of up to 9 lines after the `BOTTOM LINE` heading for the first line
longer than 30 characters, then extension over the following (at most 4)
lines. -/
def bottomScan : List Str → Nat → Str
  | _, 0 => []
  | [], _ => []
  | l :: rest, fuel + 1 =>
    let ls := stripStr l
    if !ls.isEmpty && ls.length > 30 then ls ++ extendBottom (rest.take 4)
    else bottomScan rest fuel

/-- The bottom-line extractor (cbac_selenium_scraper.py:284-298): the first
line containing `BOTTOM LINE` opens the scan; no heading yields the empty
string. -/
def extractBottomLine : List Str → Str
  | [] => []
  | l :: rest =>
    if containsStr (upperStr l) (str "BOTTOM LINE") then bottomScan rest 9
    else extractBottomLine rest

/-- Collection of discussion lines (cbac_selenium_scraper.py:304-310) over
the (at most 29) lines after the heading. -/
def discussionScan : List Str → List Str
  | [] => []
  | l :: rest =>
    let ls := stripStr l
    if ls.isEmpty then discussionScan rest
    else if containsAnyOf (upperStr l)
        [str "AVALANCHE PROBLEM", str "WEATHER", str "RECENT"] then []
    else if ls.length > 20 then ls :: discussionScan rest
    else discussionScan rest

/-- The discussion extractor (cbac_selenium_scraper.py:301-312). -/
def extractDiscussion : List Str → Str
  | [] => []
  | l :: rest =>
    if containsStr (upperStr l) (str "FORECAST DISCUSSION") then
      joinSpace (discussionScan (rest.take 29))
    else extractDiscussion rest

/-- Regex `-?\d+` matched at the head of a string: value and remainder.
The sign branch is preferred and requires at least one following digit. -/
def matchSignedInt : Str → Option (Int × Str)
  | '-' :: rest =>
    let ds := rest.takeWhile isDigitChar
    if ds.isEmpty then none
    else some (-(natOfDigits ds : Int), rest.drop ds.length)
  | s =>
    let ds := s.takeWhile isDigitChar
    if ds.isEmpty then none else some ((natOfDigits ds : Int), s.drop ds.length)

/-- Regex `\d+` matched at the head of a string: value and remainder. -/
def matchNat (s : Str) : Option (Nat × Str) :=
  let ds := s.takeWhile isDigitChar
  if ds.isEmpty then none else some (natOfDigits ds, s.drop ds.length)

/-- Regex alternation `(?:to|-)` matched at the head of a string (the two
branches start with distinct characters, so the match is deterministic). -/
def sepToOrDash : Str → Option Str
  | 't' :: 'o' :: r => some r
  | '-' :: r => some r
  | _ => none

/-- The temperature pattern `(-?\d+)\s*(?:to|-)\s*(-?\d+)\s*(?:f|degrees)`
matched at one position of the (lowercased) weather text. -/
def tryTempAt (s : Str) : Option (Int × Int) :=
  match matchSignedInt s with
  | none => none
  | some (a, r1) =>
    match sepToOrDash (r1.dropWhile isPySpace) with
    | none => none
    | some r3 =>
      match matchSignedInt (r3.dropWhile isPySpace) with
      | none => none
      | some (b, r5) =>
        let r6 := r5.dropWhile isPySpace
        if (str "f").isPrefixOf r6 || (str "degrees").isPrefixOf r6 then some (a, b)
        else none

/-- `re.search` of the temperature pattern: leftmost match. -/
def searchTemp : Str → Option (Int × Int)
  | [] => none
  | s@(_ :: rest) =>
    match tryTempAt s with
    | some x => some x
    | none => searchTemp rest

/-- The tail `\s*(\d+)\s*(?:to|-)\s*(\d+)\s*mph` of the wind pattern,
matched at one position. -/
def windTail (s : Str) : Option (Nat × Nat) :=
  match matchNat (s.dropWhile isPySpace) with
  | none => none
  | some (a, r1) =>
    match sepToOrDash (r1.dropWhile isPySpace) with
    | none => none
    | some r2 =>
      match matchNat (r2.dropWhile isPySpace) with
      | none => none
      | some (b, r3) =>
        if (str "mph").isPrefixOf (r3.dropWhile isPySpace) then some (a, b) else none

/-- The lazy `(?:.*?)` of the wind pattern: try the tail at each position,
advancing only over non-newline characters (`.` does not cross lines; the
`\s*` inside the tail may). -/
def windScan : Str → Option (Nat × Nat)
  | [] => none
  | s@(c :: rest) =>
    match windTail s with
    | some x => some x
    | none => if c = '\n' then none else windScan rest

/-- The wind pattern `wind[s]?\s+(?:.*?)\s*(\d+)\s*(?:to|-)\s*(\d+)\s*mph`
matched at one position: after `wind`, an optional `s`, at least one
whitespace character, then the lazy scan. -/
def tryWindAt (s : Str) : Option (Nat × Nat) :=
  if (str "wind").isPrefixOf s then
    let r := s.drop 4
    let r' := match r with
              | 's' :: r2 => r2
              | _ => r
    match r' with
    | c :: _ => if isPySpace c then windScan (r'.dropWhile isPySpace) else none
    | [] => none
  else none

/-- `re.search` of the wind pattern: leftmost match. -/
def searchWind : Str → Option (Nat × Nat)
  | [] => none
  | s@(_ :: rest) =>
    match tryWindAt s with
    | some x => some x
    | none => searchWind rest

/-- The snowfall pattern `(\d+)\s*(?:to|-)\s*(\d+)\s*(?:inch|in|")` matched at
one position (only the two captures are used by the source). -/
def trySnowAt (s : Str) : Option (Nat × Nat) :=
  match matchNat s with
  | none => none
  | some (a, r1) =>
    match sepToOrDash (r1.dropWhile isPySpace) with
    | none => none
    | some r2 =>
      match matchNat (r2.dropWhile isPySpace) with
      | none => none
      | some (b, r3) =>
        let r4 := r3.dropWhile isPySpace
        if (str "in").isPrefixOf r4 || (str "\"").isPrefixOf r4 then some (a, b)
        else none

/-- `re.search` of the snowfall pattern: leftmost match. -/
def searchSnow : Str → Option (Nat × Nat)
  | [] => none
  | s@(_ :: rest) =>
    match trySnowAt s with
    | some x => some x
    | none => searchSnow rest

/-- The optional weather record assembled by `parse_page_text`
(cbac_selenium_scraper.py:330-356); the numeric ranges are the optional
dictionary entries. -/
structure WeatherInfo where
  summary : Str
  full_text : Str
  temp : Option (Int × Int)
  wind : Option (Nat × Nat)
  snow : Option (Nat × Nat)
  deriving Repr, DecidableEq

/-- A weather heading: `WEATHER` together with `MOUNTAIN`, `FORECAST`
or `SUMMARY` (cbac_selenium_scraper.py:318). -/
def isWeatherHeading (line : Str) : Bool :=
  let u := upperStr line
  containsStr u (str "WEATHER") &&
    (containsStr u (str "MOUNTAIN") || containsStr u (str "FORECAST") ||
      containsStr u (str "SUMMARY"))

/-- Collection of weather lines over the (at most 39) lines after the
heading: skip empty lines, stop at a major section heading, keep lines
longer than 10 characters. -/
def weatherCollect : List Str → List Str
  | [] => []
  | l :: rest =>
    let lt := stripStr l
    if lt.isEmpty then weatherCollect rest
    else if containsAnyOf (upperStr lt)
        [str "AVALANCHE DANGER", str "AVALANCHE PROBLEM", str "BOTTOM LINE"] then []
    else if lt.length > 10 then lt :: weatherCollect rest
    else weatherCollect rest

/-- The weather extractor (cbac_selenium_scraper.py:316-357): first weather
heading wins; an empty collection leaves the weather record absent. -/
def extractWeather : List Str → Option WeatherInfo
  | [] => none
  | l :: rest =>
    if isWeatherHeading l then
      let ws := weatherCollect (rest.take 39)
      if ws.isEmpty then none
      else
        let wt := joinSpace ws
        let wl := lowerStr wt
        some { summary := wt.take 500, full_text := wt,
               temp := searchTemp wl, wind := searchWind wl, snow := searchSnow wl }
    else extractWeather rest

/-- The normalized forecast record returned by `parse_page_text`.  The issue
and valid dates and the forecast URL come from the wall clock and the zone
URL table (external collaborators per the spec) and are not part of the
extraction logic, so they are not modelled. -/
structure Forecast where
  zone : Str
  zone_name : Str
  danger_alpine : Nat
  danger_treeline : Nat
  danger_below_treeline : Nat
  bottom_line : Str
  discussion : Str
  problems : List AvalancheProblem
  weather : Option WeatherInfo
  deriving Repr, DecidableEq

/-- `parse_page_text` (cbac_selenium_scraper.py:132-374): split the text into
lines, run the danger scan, problem scan, bottom-line, discussion and
weather extractors, and assemble the forecast with the documented defaults. -/
def parse_page_text (text : Str) (zone : Str) : Forecast :=
  let lines := splitLines text
  let ds := parseDanger lines
  let bottom_line := extractBottomLine lines
  let discussion := extractDiscussion lines
  { zone := zone
    zone_name := if zone = str "northwest" then str "Northwest Mountains"
                 else str "Southeast Mountains"
    danger_alpine := ds.danger_alpine
    danger_treeline := ds.danger_treeline
    danger_below_treeline := ds.danger_btl
    bottom_line := if bottom_line.isEmpty then str "Visit CBAC website for forecast summary."
                   else bottom_line
    discussion := if discussion.isEmpty then str "Visit CBAC website for full forecast discussion."
                  else discussion
    problems := problemsLoop lines
    weather := extractWeather lines }

/-- Exact condition under which one danger-scan step can assign the alpine
value: the line is not an `AVALANCHE DANGER` heading (that branch continues),
not a closing heading (that branch closes the region), carries the
above-treeline marker, and the two-line window holds a rating token. -/
def setsAlpine (l : Str) (w : List Str) : Bool :=
  !isADHeading l && !isClosingHeading l && markerAbove l && (findRatingLine w).isSome

/-- Exact condition under which one danger-scan step can assign the treeline
value (the near-treeline branch only runs when the above-treeline branch did
not). -/
def setsTreeline (l : Str) (w : List Str) : Bool :=
  !isADHeading l && !isClosingHeading l && !markerAbove l && markerNear l &&
    (findRatingLine w).isSome

/-- Exact condition under which one danger-scan step can assign the
below-treeline value. -/
def setsBtl (l : Str) (w : List Str) : Bool :=
  !isADHeading l && !isClosingHeading l && !markerAbove l && !markerNear l &&
    markerBelow l && (findRatingLine w).isSome

/-- The region flags (`in_danger_section`, `danger_section_done`) evolve
independently of the danger values; this is their one-line transition. -/
def regionFlagsStep (l : Str) (f : Bool × Bool) : Bool × Bool :=
  if isADHeading l then (true, f.2)
  else if f.1 && isClosingHeading l then (false, true)
  else f

/-- No position of the remaining lines can assign the given band: at every
step where the region automaton is open and not done, the setter condition
fails.  `f` carries the (value-independent) region flags. -/
def noSetterAux (sets : Str → List Str → Bool) : List Str → Bool × Bool → Bool
  | [], _ => true
  | l :: rest, f =>
    !(f.1 && !f.2 && sets l (rest.take 2)) && noSetterAux sets rest (regionFlagsStep l f)

/-- The concrete input refuting claim C1 as stated: real ratings set
alpine to 3, a second above-treeline marker sits just before the closing
heading, and the legend's first line sits just after it. -/
def legendOverwriteLines : List Str :=
  [ str "AVALANCHE DANGER", str "Above Treeline ⇡", str "3 - Considerable",
    str "Above Treeline ⇡", str "DANGER SCALE", str "1 - Low" ]

end CbacSeleniumScraper

namespace CbacApiScraper

/-! Embedding of `src/scraper/cbac_api_scraper.py` (the payload-shaped parts
the claims are about). -/

/-- `ASPECT_MAP` in source order. -/
def ASPECT_MAP : List (Str × Str) :=
  [ (str "north", str "N"), (str "northeast", str "NE"), (str "east", str "E"),
    (str "southeast", str "SE"), (str "south", str "S"),
    (str "southwest", str "SW"), (str "west", str "W"),
    (str "northwest", str "NW") ]

/-- `ELEVATION_MAP` in source order. -/
def ELEVATION_MAP : List (Str × Str) :=
  [ (str "upper", str "alpine"), (str "middle", str "treeline"),
    (str "lower", str "below_treeline") ]

/-- Model of Python `str.split()` with no separator: split on whitespace
runs, discarding empty pieces.  `acc` holds the current word reversed. -/
def splitWsAux : Str → Str → List Str
  | [], acc => if acc.isEmpty then [] else [acc.reverse]
  | c :: rest, acc =>
    if isPySpace c then
      if acc.isEmpty then splitWsAux rest []
      else acc.reverse :: splitWsAux rest []
    else splitWsAux rest (c :: acc)

/-- Model of Python `str.split()` with no separator. -/
def splitWs (s : Str) : List Str := splitWsAux s []

/-- `rose[aspect][elevation] = True`: set one cell of the rose.  The aspect
and elevation words handed to it are always existing keys (the maps' value
sets are exactly the rose's key sets), so an association-list update is an
exact model of the dict assignment. -/
def setCell (rose : Rose) (asp elev : Str) : Rose :=
  rose.map (fun p =>
    if p.1 = asp then (p.1, p.2.map (fun q => if q.1 = elev then (q.1, true) else q))
    else p)

/-- The guarded cell update of the location loop
(cbac_api_scraper.py:103-107): `if aspect and elevation and aspect in rose`,
then `rose[aspect][elevation] = True` (the map values are nonempty strings,
so Python truthiness is `isSome`). -/
def applyLookup (rose : Rose) : Option Str → Option Str → Rose
  | some asp, some elev =>
    if ((rose.lookup asp).isSome : Bool) then setCell rose asp elev else rose
  | _, _ => rose

/-- The split-and-lookup step over the token list: `aspect =
ASPECT_MAP.get(parts[0])`, `elevation = ELEVATION_MAP.get(parts[1])`, then
the guarded cell update. -/
def applyLocParts (rose : Rose) : List Str → Rose
  | a :: e :: _ => applyLookup rose (ASPECT_MAP.lookup a) (ELEVATION_MAP.lookup e)
  | _ => rose

/-- One iteration of the location loop: `loc.lower().split()` then the
lookups and cell update. -/
def applyLoc (rose : Rose) (loc : Str) : Rose :=
  applyLocParts rose (splitWs (lowerStr loc))

/-- `parse_locations_to_rose` (cbac_api_scraper.py:85-109). -/
def parse_locations_to_rose (locations : List Str) : Rose :=
  locations.foldl applyLoc create_empty_rose

/-- A malformed location entry in the sense of the spec, on the split token
list: fewer than two tokens, or an unrecognized aspect or elevation word. -/
def malformedParts : List Str → Bool
  | a :: e :: _ => (ASPECT_MAP.lookup a).isNone || (ELEVATION_MAP.lookup e).isNone
  | _ => true

/-- A malformed location entry in the sense of the spec. -/
def malformedLoc (loc : Str) : Bool :=
  malformedParts (splitWs (lowerStr loc))

/-- The JSON value found under a problem's `size` key: absent, not a list,
or a list of (string-rendered) entries. -/
inductive SizeField where
  | absent : SizeField
  | nonList : SizeField
  | strList : List Str → SizeField
  deriving Repr, DecidableEq

/-- The list branch of the size logic: `f"D{size_range[0]}-{size_range[1]}"`
when the list has at least two entries, else `"D2"`. -/
def sizeFromList : List Str → Str
  | a :: b :: _ => str "D" ++ a ++ str "-" ++ b
  | _ => str "D2"

/-- The size logic of `parse_forecast` (cbac_api_scraper.py:335-339):
`prob.get('size', ['1', '2'])`, then the list branch when the value is a
list of length at least 2, else `"D2"`. -/
def apiSize : SizeField → Str
  | .absent => sizeFromList [str "1", str "2"]
  | .nonList => str "D2"
  | .strList xs => sizeFromList xs

/-- The JSON value found under a problem's `media` key: absent (or another
falsy value), a truthy non-dict, an empty (hence falsy) dict, or a nonempty
dict with an optional `caption` entry. -/
inductive MediaField where
  | absent : MediaField
  | nonDict : MediaField
  | emptyDict : MediaField
  | dictWith : Option Str → MediaField
  deriving Repr, DecidableEq

/-- The details logic of `parse_forecast` (cbac_api_scraper.py:344-348):
`details = media.get('caption', '')` when `media` is a truthy dict, else
`None`.  The caption is passed through verbatim, with no truncation. -/
def apiDetails : MediaField → Option Str
  | .absent => none
  | .nonDict => none
  | .emptyDict => none
  | .dictWith cap => some (cap.getD [])

end CbacApiScraper

namespace CbacScraper

/-! Embedding of `src/scraper/cbac_scraper.py` (the pure parts the claims
are about). -/

/-- `calculate_trend` (cbac_scraper.py:482-498), the aggregate
observation-trend variant.  The Python comparisons `second_half >
first_half * 1.5` and its mirror multiply by the float `1.5`; on the
integer sums in scope that product is exact, and the comparison is embedded
as the exact rational test `2 * second_half > 3 * first_half`. -/
def calculate_trend (daily_counts : List (Str × Nat)) : Str :=
  if daily_counts.length < 3 then str "insufficient_data"
  else
    let counts := daily_counts.map Prod.snd
    let first_half := (counts.take (counts.length / 2)).sum
    let second_half := (counts.drop (counts.length / 2)).sum
    if 2 * second_half > 3 * first_half then str "increasing"
    else if 2 * first_half > 3 * second_half then str "decreasing"
    else str "stable"

/-- The optional tail `(?:-D?(\d))?` of the size regex, matched greedily:
the consumed characters, or nothing when the group cannot match. -/
def sizeOptTail : Str → Str
  | '-' :: 'D' :: e :: _ => if isDigitChar e then ['-', 'D', e] else []
  | '-' :: e :: _ => if isDigitChar e then ['-', e] else []
  | _ => []

/-- The size regex `D(\d)(?:-D?(\d))?` matched at one position: the full
matched text `group(0)`. -/
def trySizeAt : Str → Option Str
  | 'D' :: d :: rest =>
    if isDigitChar d then some ('D' :: d :: sizeOptTail rest) else none
  | _ => none

/-- `re.search` of the size regex over the problem text: leftmost match. -/
def searchSize : Str → Option Str
  | [] => none
  | s@(_ :: rest) =>
    match trySizeAt s with
    | some x => some x
    | none => searchSize rest

/-- The size snippet of `extract_forecast_data` (cbac_scraper.py:363-367):
the raw regex match when one exists, else the default `"D2"`. -/
def sizeFromProblemText (problem_text : Str) : Str :=
  (searchSize problem_text).getD (str "D2")

end CbacScraper

namespace SaveToSupabase

/-! Embedding of `src/scraper/save_to_supabase.py` (the trend classifier). -/

/-- The storm-incoming phrase list (save_to_supabase.py:71-76). -/
def storm_patterns : List Str :=
  [ str "storm expected", str "storm approaching", str "storm arriving",
    str "snow expected", str "snow arriving", str "inches expected",
    str "accumulation expected", str "danger is expected to rise",
    str "loading will", str "new load" ]

/-- The worsening keyword list (save_to_supabase.py:81-84). -/
def worsening_keywords : List Str :=
  [ str "dangerous avalanche conditions", str "heightened avalanche conditions",
    str "increasing", str "elevated danger" ]

/-- The improving keyword list (save_to_supabase.py:88-91). -/
def improving_keywords : List Str :=
  [ str "adjusting", str "stabiliz", str "decreased", str "isolated",
    str "stubborn", str "unlikely", str "slowly improved",
    str "conditions have improved" ]

/-- The combined lowercased text `f"{bottom_line or ''} {discussion or ''}"`
scanned by the keyword classifier (`x or ''` is the identity on strings). -/
def combinedLower (bottom_line discussion : Str) : Str :=
  lowerStr (bottom_line ++ str " " ++ discussion)

/-- `analyze_trend_from_text` (save_to_supabase.py:59-94): storm phrases,
then worsening keywords, then improving keywords, else steady. -/
def analyze_trend_from_text (bottom_line discussion : Str) : Str :=
  let text_lower := combinedLower bottom_line discussion
  if containsAnyOf text_lower storm_patterns then str "storm_incoming"
  else if containsAnyOf text_lower worsening_keywords then str "worsening"
  else if containsAnyOf text_lower improving_keywords then str "improving"
  else str "steady"

/-- `calculate_trend` (save_to_supabase.py:97-145): text analysis when no
previous forecast exists; otherwise storm keywords take priority, then the
danger delta, then the problem-count delta, then the text analysis. -/
def calculate_trend (current_danger : Int) (current_problems : Int)
    (prev_danger : Option Int) (prev_problems : Option Int)
    (bottom_line discussion : Str) : Str :=
  match prev_danger with
  | none => analyze_trend_from_text bottom_line discussion
  | some pd =>
    let text_trend := analyze_trend_from_text bottom_line discussion
    if text_trend = str "storm_incoming" then str "storm_incoming"
    else if current_danger - pd < 0 then str "improving"
    else if current_danger - pd > 0 then str "worsening"
    else
      match prev_problems with
      | some pp =>
        if current_problems - pp < 0 then str "improving"
        else if current_problems - pp > 0 then str "worsening"
        else text_trend
      | none => text_trend

end SaveToSupabase

/-- Modelled from the spec's words (the size invariant of claim C7, spec
section 3: "size — a string of the form \"D<n>\" or \"D<n>-D<m>\" where
1 ≤ n ≤ m ≤ 5", section 8: "Problem size strings always match
`D[1-5](-D?[1-5])?`"): the string matches the pattern and, when a range is
present, the first digit does not exceed the second. -/
def sizeSpecOk (s : Str) : Bool :=
  match s with
  | x :: d1 :: rest =>
    (x = 'D') && ('1' ≤ d1 && d1 ≤ '5') &&
      (match rest with
       | [] => true
       | y :: r2 =>
         (y = '-') &&
           (match r2 with
            | [d2] => ('1' ≤ d2 && d2 ≤ '5') && d1 ≤ d2
            | [z, d2] => (z = 'D') && (('1' ≤ d2 && d2 ≤ '5') && d1 ≤ d2)
            | _ => false))
  | _ => false


/-- The well-formedness of a rose stated by the spec: exactly the 8 canonical
aspect keys in order, each holding exactly the three elevation keys. -/
def roseShape (r : Rose) : Prop :=
  r.map Prod.fst =
      [str "N", str "NE", str "E", str "SE", str "S", str "SW", str "W", str "NW"] ∧
    ∀ p ∈ r, p.2.map Prod.fst = [str "alpine", str "treeline", str "below_treeline"]

/-- The payload condition under which the API size logic produces a
spec-conforming size: when the size value is a list with at least two
entries, its first two entries are single digit characters 1–5 in
nondecreasing order; absent, non-list, or short-list values take the
defaults. -/
def benignSizeField : CbacApiScraper.SizeField → Bool
  | .strList (a :: b :: _) =>
    match a, b with
    | [c1], [c2] => ('1' ≤ c1 && c1 ≤ '5') && ('1' ≤ c2 && c2 ≤ '5') && c1 ≤ c2
    | _, _ => false
  | _ => true

/-- A 1001-character media caption, refuting the 1000-character details cap
on the API path. -/
def longCaption : Str := List.replicate 1001 'a'

/-- A two-line problem block used as a concrete witness input: a problem
header and one 64-character descriptive line. -/
def demoProblemText : Str :=
  str "PROBLEM #1: Persistent Slab\nThis sixty character descriptive line talks about the problem aa"

/-- The descriptive line of `demoProblemText`. -/
def demoDetails : Str :=
  str "This sixty character descriptive line talks about the problem aa"


namespace CbacSeleniumScraper

theorem dangerStep_flags (l : Str) (w : List Str) (s : DangerState) :
    ((dangerStep l w s).in_danger_section, (dangerStep l w s).danger_section_done) =
      regionFlagsStep l (s.in_danger_section, s.danger_section_done) := by
  unfold dangerStep regionFlagsStep
  split_ifs <;>
    first
      | rfl
      | (rcases h : findRatingLine w with _ | nl <;> simp_all <;> split <;> simp_all)

theorem dangerStep_done_frozen (l : Str) (w : List Str) (s : DangerState)
    (h : s.danger_section_done = true) :
    (dangerStep l w s).danger_alpine = s.danger_alpine ∧
      (dangerStep l w s).danger_treeline = s.danger_treeline ∧
      (dangerStep l w s).danger_btl = s.danger_btl ∧
      (dangerStep l w s).danger_section_done = true := by
  unfold dangerStep
  split_ifs <;> simp_all

theorem dangerLoop_done_frozen (lines : List Str) :
    ∀ s : DangerState, s.danger_section_done = true →
      (dangerLoop lines s).danger_alpine = s.danger_alpine ∧
        (dangerLoop lines s).danger_treeline = s.danger_treeline ∧
        (dangerLoop lines s).danger_btl = s.danger_btl := by
  induction lines with
  | nil => intro s _; exact ⟨rfl, rfl, rfl⟩
  | cons l rest ih =>
    intro s h
    have hstep := dangerStep_done_frozen l (rest.take 2) s h
    have htail := ih (dangerStep l (rest.take 2) s) hstep.2.2.2
    rw [dangerLoop]
    exact ⟨htail.1.trans hstep.1, htail.2.1.trans hstep.2.1, htail.2.2.trans hstep.2.2.1⟩

theorem findRatingLine_matched (w : List Str) (nl : Str)
    (h : findRatingLine w = some nl) : matchDangerToken nl = true :=
  List.find?_some h

theorem parse_danger_level_matched (c : Char) (rest : Str)
    (h : matchDangerToken (c :: rest) = true) :
    parse_danger_level (c :: rest) = c.toNat - 48 := by
  unfold parse_danger_level searchDangerDigit
  rw [if_pos h]

theorem dangerStep_alpine_preserved (l : Str) (w : List Str) (s : DangerState)
    (h : s.in_danger_section = false ∨ s.danger_section_done = true ∨
      setsAlpine l w = false) :
    (dangerStep l w s).danger_alpine = s.danger_alpine := by
  unfold dangerStep
  split_ifs <;>
    first
      | rfl
      | (rcases hfr : findRatingLine w with _ | nl <;> simp_all [setsAlpine] <;>
          split <;> simp_all)

theorem dangerStep_treeline_preserved (l : Str) (w : List Str) (s : DangerState)
    (h : s.in_danger_section = false ∨ s.danger_section_done = true ∨
      setsTreeline l w = false) :
    (dangerStep l w s).danger_treeline = s.danger_treeline := by
  unfold dangerStep
  split_ifs <;>
    first
      | rfl
      | (rcases hfr : findRatingLine w with _ | nl <;> simp_all [setsTreeline] <;>
          split <;> simp_all)

theorem dangerStep_btl_preserved (l : Str) (w : List Str) (s : DangerState)
    (h : s.in_danger_section = false ∨ s.danger_section_done = true ∨
      setsBtl l w = false) :
    (dangerStep l w s).danger_btl = s.danger_btl := by
  unfold dangerStep
  split_ifs <;>
    first
      | rfl
      | (rcases hfr : findRatingLine w with _ | nl <;> simp_all [setsBtl] <;>
          split <;> simp_all)

theorem dangerLoop_alpine_preserved (lines : List Str) :
    ∀ s : DangerState,
      noSetterAux setsAlpine lines (s.in_danger_section, s.danger_section_done) = true →
      (dangerLoop lines s).danger_alpine = s.danger_alpine := by
  induction lines with
  | nil => intro s _; rfl
  | cons l rest ih =>
    intro s h
    rw [noSetterAux, Bool.and_eq_true] at h
    have hflags := dangerStep_flags l (rest.take 2) s
    have h2 : noSetterAux setsAlpine rest
        ((dangerStep l (rest.take 2) s).in_danger_section,
          (dangerStep l (rest.take 2) s).danger_section_done) = true := by
      rw [hflags]; exact h.2
    rw [dangerLoop, ih _ h2]
    apply dangerStep_alpine_preserved
    cases hi : s.in_danger_section <;> cases hd : s.danger_section_done <;> simp_all

theorem dangerLoop_treeline_preserved (lines : List Str) :
    ∀ s : DangerState,
      noSetterAux setsTreeline lines (s.in_danger_section, s.danger_section_done) = true →
      (dangerLoop lines s).danger_treeline = s.danger_treeline := by
  induction lines with
  | nil => intro s _; rfl
  | cons l rest ih =>
    intro s h
    rw [noSetterAux, Bool.and_eq_true] at h
    have hflags := dangerStep_flags l (rest.take 2) s
    have h2 : noSetterAux setsTreeline rest
        ((dangerStep l (rest.take 2) s).in_danger_section,
          (dangerStep l (rest.take 2) s).danger_section_done) = true := by
      rw [hflags]; exact h.2
    rw [dangerLoop, ih _ h2]
    apply dangerStep_treeline_preserved
    cases hi : s.in_danger_section <;> cases hd : s.danger_section_done <;> simp_all

theorem dangerLoop_btl_preserved (lines : List Str) :
    ∀ s : DangerState,
      noSetterAux setsBtl lines (s.in_danger_section, s.danger_section_done) = true →
      (dangerLoop lines s).danger_btl = s.danger_btl := by
  induction lines with
  | nil => intro s _; rfl
  | cons l rest ih =>
    intro s h
    rw [noSetterAux, Bool.and_eq_true] at h
    have hflags := dangerStep_flags l (rest.take 2) s
    have h2 : noSetterAux setsBtl rest
        ((dangerStep l (rest.take 2) s).in_danger_section,
          (dangerStep l (rest.take 2) s).danger_section_done) = true := by
      rw [hflags]; exact h.2
    rw [dangerLoop, ih _ h2]
    apply dangerStep_btl_preserved
    cases hi : s.in_danger_section <;> cases hd : s.danger_section_done <;> simp_all

theorem dangerStep_alpine_assign (l : Str) (w : List Str) (s : DangerState) (nl : Str)
    (hin : s.in_danger_section = true) (hdone : s.danger_section_done = false)
    (hAD : isADHeading l = false) (hcl : isClosingHeading l = false)
    (hm : markerAbove l = true) (hfr : findRatingLine w = some nl) :
    (dangerStep l w s).danger_alpine = parse_danger_level nl := by
  simp [dangerStep, hin, hdone, hAD, hcl, hm, hfr]

theorem dangerStep_treeline_assign (l : Str) (w : List Str) (s : DangerState) (nl : Str)
    (hin : s.in_danger_section = true) (hdone : s.danger_section_done = false)
    (hAD : isADHeading l = false) (hcl : isClosingHeading l = false)
    (hma : markerAbove l = false) (hm : markerNear l = true)
    (hfr : findRatingLine w = some nl) :
    (dangerStep l w s).danger_treeline = parse_danger_level nl := by
  simp [dangerStep, hin, hdone, hAD, hcl, hma, hm, hfr]

theorem dangerStep_btl_assign (l : Str) (w : List Str) (s : DangerState) (nl : Str)
    (hin : s.in_danger_section = true) (hdone : s.danger_section_done = false)
    (hAD : isADHeading l = false) (hcl : isClosingHeading l = false)
    (hma : markerAbove l = false) (hmn : markerNear l = false)
    (hm : markerBelow l = true) (hfr : findRatingLine w = some nl) :
    (dangerStep l w s).danger_btl = parse_danger_level nl := by
  simp [dangerStep, hin, hdone, hAD, hcl, hma, hmn, hm, hfr]

end CbacSeleniumScraper

/-- C1, counterexample: an input whose `AVALANCHE DANGER` heading is followed
by a real rating (alpine = 3) and then a `DANGER SCALE` heading, on which the
legend line `1 - Low` appearing after the closing heading does overwrite the
already-extracted alpine = 3: the marker lookahead window (2 lines) pierces
the region boundary. -/
theorem C1_counterexample :
    (CbacSeleniumScraper.parseDanger CbacSeleniumScraper.legendOverwriteLines).danger_alpine = 1 ∧
      (CbacSeleniumScraper.parseDanger CbacSeleniumScraper.legendOverwriteLines).danger_alpine ≠ 3 := by
  decide

/-- C1, amended: danger values can only be assigned while a band-marker line
is processed in the open danger region; processing the first closing heading
while the region is open permanently sets the done flag, and from any
done state every later line — legend rating lines and renewed
`AVALANCHE DANGER` lines included — leaves all three danger values unchanged.
(The claim's stronger reading fails only because a marker within the last two
lines before the closing heading may read its rating token from up to two
lines beyond it, as the counterexample shows.) -/
theorem C1_closed_region_frozen :
    (∀ (l : Str) (w : List Str) (s : CbacSeleniumScraper.DangerState),
        s.danger_section_done = true →
        (CbacSeleniumScraper.dangerStep l w s).danger_alpine = s.danger_alpine ∧
          (CbacSeleniumScraper.dangerStep l w s).danger_treeline = s.danger_treeline ∧
          (CbacSeleniumScraper.dangerStep l w s).danger_btl = s.danger_btl ∧
          (CbacSeleniumScraper.dangerStep l w s).danger_section_done = true) ∧
    (∀ (lines : List Str) (s : CbacSeleniumScraper.DangerState),
        s.danger_section_done = true →
        (CbacSeleniumScraper.dangerLoop lines s).danger_alpine = s.danger_alpine ∧
          (CbacSeleniumScraper.dangerLoop lines s).danger_treeline = s.danger_treeline ∧
          (CbacSeleniumScraper.dangerLoop lines s).danger_btl = s.danger_btl) ∧
    (∀ (l : Str) (w : List Str) (s : CbacSeleniumScraper.DangerState),
        s.in_danger_section = true → CbacSeleniumScraper.isADHeading l = false →
        CbacSeleniumScraper.isClosingHeading l = true →
        (CbacSeleniumScraper.dangerStep l w s).danger_section_done = true) := by
  refine ⟨CbacSeleniumScraper.dangerStep_done_frozen,
    fun lines => CbacSeleniumScraper.dangerLoop_done_frozen lines, ?_⟩
  intro l w s hin hAD hcl
  unfold CbacSeleniumScraper.dangerStep
  split_ifs <;> simp_all

/-- C1, witness for the amended theorem at a concrete done state and line. -/
theorem C1_witness :
    (CbacSeleniumScraper.dangerLoop [str "AVALANCHE DANGER", str "1 - Low"]
        { in_danger_section := false, danger_section_done := true,
          danger_alpine := 3, danger_treeline := 2, danger_btl := 1 }).danger_alpine = 3 :=
  (C1_closed_region_frozen.2.1 [str "AVALANCHE DANGER", str "1 - Low"]
    { in_danger_section := false, danger_section_done := true,
      danger_alpine := 3, danger_treeline := 2, danger_btl := 1 } rfl).1

/-- C4: inside the open danger region (region flag set, done flag clear, and
the line is neither an `AVALANCHE DANGER` heading nor a closing heading),
processing a band's marker line assigns that band the leading digit of the
first rating-token line in the two-line lookahead window, for digits 1–5;
and when no marker-plus-token match for a band occurs at any open-region
position, the band ends at its default (2 for alpine and treeline, 1 for
below-treeline). -/
theorem C4_band_assignment_and_defaults :
    (∀ (l : Str) (w : List Str) (s : CbacSeleniumScraper.DangerState) (c : Char) (rest : Str),
        s.in_danger_section = true → s.danger_section_done = false →
        CbacSeleniumScraper.isADHeading l = false →
        CbacSeleniumScraper.isClosingHeading l = false →
        CbacSeleniumScraper.markerAbove l = true →
        CbacSeleniumScraper.findRatingLine w = some (c :: rest) →
        '1' ≤ c → c ≤ '5' →
        (CbacSeleniumScraper.dangerStep l w s).danger_alpine = c.toNat - 48) ∧
    (∀ (l : Str) (w : List Str) (s : CbacSeleniumScraper.DangerState) (c : Char) (rest : Str),
        s.in_danger_section = true → s.danger_section_done = false →
        CbacSeleniumScraper.isADHeading l = false →
        CbacSeleniumScraper.isClosingHeading l = false →
        CbacSeleniumScraper.markerAbove l = false →
        CbacSeleniumScraper.markerNear l = true →
        CbacSeleniumScraper.findRatingLine w = some (c :: rest) →
        '1' ≤ c → c ≤ '5' →
        (CbacSeleniumScraper.dangerStep l w s).danger_treeline = c.toNat - 48) ∧
    (∀ (l : Str) (w : List Str) (s : CbacSeleniumScraper.DangerState) (c : Char) (rest : Str),
        s.in_danger_section = true → s.danger_section_done = false →
        CbacSeleniumScraper.isADHeading l = false →
        CbacSeleniumScraper.isClosingHeading l = false →
        CbacSeleniumScraper.markerAbove l = false →
        CbacSeleniumScraper.markerNear l = false →
        CbacSeleniumScraper.markerBelow l = true →
        CbacSeleniumScraper.findRatingLine w = some (c :: rest) →
        '1' ≤ c → c ≤ '5' →
        (CbacSeleniumScraper.dangerStep l w s).danger_btl = c.toNat - 48) ∧
    (∀ lines : List Str,
        CbacSeleniumScraper.noSetterAux CbacSeleniumScraper.setsAlpine lines (false, false) = true →
        (CbacSeleniumScraper.parseDanger lines).danger_alpine = 2) ∧
    (∀ lines : List Str,
        CbacSeleniumScraper.noSetterAux CbacSeleniumScraper.setsTreeline lines (false, false) = true →
        (CbacSeleniumScraper.parseDanger lines).danger_treeline = 2) ∧
    (∀ lines : List Str,
        CbacSeleniumScraper.noSetterAux CbacSeleniumScraper.setsBtl lines (false, false) = true →
        (CbacSeleniumScraper.parseDanger lines).danger_btl = 1) := by
  refine ⟨?_, ?_, ?_, ?_, ?_, ?_⟩
  · intro l w s c rest hin hdone hAD hcl hm hfr _ _
    rw [CbacSeleniumScraper.dangerStep_alpine_assign l w s _ hin hdone hAD hcl hm hfr]
    exact CbacSeleniumScraper.parse_danger_level_matched c rest
      (CbacSeleniumScraper.findRatingLine_matched w _ hfr)
  · intro l w s c rest hin hdone hAD hcl hma hm hfr _ _
    rw [CbacSeleniumScraper.dangerStep_treeline_assign l w s _ hin hdone hAD hcl hma hm hfr]
    exact CbacSeleniumScraper.parse_danger_level_matched c rest
      (CbacSeleniumScraper.findRatingLine_matched w _ hfr)
  · intro l w s c rest hin hdone hAD hcl hma hmn hm hfr _ _
    rw [CbacSeleniumScraper.dangerStep_btl_assign l w s _ hin hdone hAD hcl hma hmn hm hfr]
    exact CbacSeleniumScraper.parse_danger_level_matched c rest
      (CbacSeleniumScraper.findRatingLine_matched w _ hfr)
  · intro lines h; exact CbacSeleniumScraper.dangerLoop_alpine_preserved lines _ h
  · intro lines h; exact CbacSeleniumScraper.dangerLoop_treeline_preserved lines _ h
  · intro lines h; exact CbacSeleniumScraper.dangerLoop_btl_preserved lines _ h

/-- C4, witness: a concrete marker line with rating token `3 - Considerable`
assigns alpine 3, and a concrete marker-free input keeps the treeline
default 2. -/
theorem C4_witness :
    (CbacSeleniumScraper.dangerStep (str "Above Treeline ⇡") [str "3 - Considerable"]
        ⟨true, false, 2, 2, 1⟩).danger_alpine = 3 ∧
      (CbacSeleniumScraper.parseDanger [str "no markers here"]).danger_treeline = 2 :=
  ⟨C4_band_assignment_and_defaults.1 (str "Above Treeline ⇡") [str "3 - Considerable"]
      ⟨true, false, 2, 2, 1⟩ '3' (str " - Considerable") rfl rfl (by decide) (by decide)
      (by decide) (by decide) (by decide) (by decide),
    C4_band_assignment_and_defaults.2.2.2.2.1 [str "no markers here"] (by decide)⟩

/-- C2: whenever the combined lowercased bottom-line and discussion text
contains one of the fixed storm phrases, the trend classifier returns
storm_incoming for every pair of current and previous forecasts — in
particular even when the current overall danger is strictly below the
previous one, since the storm check runs before the danger-delta check. -/
theorem C2_storm_overrides_danger_delta :
    ∀ (current_danger current_problems pd pp : Int) (bottom_line discussion : Str),
      containsAnyOf (SaveToSupabase.combinedLower bottom_line discussion)
          SaveToSupabase.storm_patterns = true →
      SaveToSupabase.calculate_trend current_danger current_problems
          (some pd) (some pp) bottom_line discussion = str "storm_incoming" := by
  intro cd cp pd pp bl disc h
  simp [SaveToSupabase.calculate_trend, SaveToSupabase.analyze_trend_from_text, h]

/-- C2, witness: a storm phrase with current danger 1 strictly below
previous danger 5 still yields storm_incoming. -/
theorem C2_witness :
    SaveToSupabase.calculate_trend 1 2 (some 5) (some 2)
        (str "A storm expected tonight will load slopes.") (str "") = str "storm_incoming" :=
  C2_storm_overrides_danger_delta 1 2 5 2
    (str "A storm expected tonight will load slopes.") (str "") (by decide)

theorem analyze_no_storm_ne (bottom_line discussion : Str)
    (h : containsAnyOf (SaveToSupabase.combinedLower bottom_line discussion)
        SaveToSupabase.storm_patterns = false) :
    ¬ SaveToSupabase.analyze_trend_from_text bottom_line discussion = str "storm_incoming" := by
  simp only [SaveToSupabase.analyze_trend_from_text, h]
  split_ifs <;> first | exact False.elim (by assumption) | decide

/-- C3: with a previous forecast present and no storm phrase in the text, a
strictly lower current overall danger yields improving and a strictly higher
one worsening; at equal danger a known smaller previous problem count yields
improving, a larger one worsening, and equal counts — or an unknown previous
count — fall through to the keyword-sentiment fallback. -/
theorem C3_danger_delta_priority :
    ∀ (cd cp pd : Int) (bottom_line discussion : Str),
      containsAnyOf (SaveToSupabase.combinedLower bottom_line discussion)
          SaveToSupabase.storm_patterns = false →
      (∀ pprob : Option Int, cd < pd →
          SaveToSupabase.calculate_trend cd cp (some pd) pprob bottom_line discussion =
            str "improving") ∧
      (∀ pprob : Option Int, pd < cd →
          SaveToSupabase.calculate_trend cd cp (some pd) pprob bottom_line discussion =
            str "worsening") ∧
      (∀ pp : Int, cd = pd → cp < pp →
          SaveToSupabase.calculate_trend cd cp (some pd) (some pp) bottom_line discussion =
            str "improving") ∧
      (∀ pp : Int, cd = pd → pp < cp →
          SaveToSupabase.calculate_trend cd cp (some pd) (some pp) bottom_line discussion =
            str "worsening") ∧
      (∀ pp : Int, cd = pd → cp = pp →
          SaveToSupabase.calculate_trend cd cp (some pd) (some pp) bottom_line discussion =
            SaveToSupabase.analyze_trend_from_text bottom_line discussion) ∧
      (cd = pd →
          SaveToSupabase.calculate_trend cd cp (some pd) none bottom_line discussion =
            SaveToSupabase.analyze_trend_from_text bottom_line discussion) := by
  intro cd cp pd bl disc h
  have hne := analyze_no_storm_ne bl disc h
  refine ⟨?_, ?_, ?_, ?_, ?_, ?_⟩
  · intro pprob hlt
    simp only [SaveToSupabase.calculate_trend]
    rw [if_neg hne, if_pos (by omega : cd - pd < 0)]
  · intro pprob hgt
    simp only [SaveToSupabase.calculate_trend]
    rw [if_neg hne, if_neg (by omega : ¬ cd - pd < 0), if_pos (by omega : cd - pd > 0)]
  · intro pp heq hlt
    simp only [SaveToSupabase.calculate_trend]
    rw [if_neg hne, if_neg (by omega : ¬ cd - pd < 0), if_neg (by omega : ¬ cd - pd > 0)]
    rw [if_pos (by omega : cp - pp < 0)]
  · intro pp heq hgt
    simp only [SaveToSupabase.calculate_trend]
    rw [if_neg hne, if_neg (by omega : ¬ cd - pd < 0), if_neg (by omega : ¬ cd - pd > 0)]
    rw [if_neg (by omega : ¬ cp - pp < 0), if_pos (by omega : cp - pp > 0)]
  · intro pp heq heqp
    simp only [SaveToSupabase.calculate_trend]
    rw [if_neg hne, if_neg (by omega : ¬ cd - pd < 0), if_neg (by omega : ¬ cd - pd > 0)]
    rw [if_neg (by omega : ¬ cp - pp < 0), if_neg (by omega : ¬ cp - pp > 0)]
  · intro heq
    simp only [SaveToSupabase.calculate_trend]
    rw [if_neg hne, if_neg (by omega : ¬ cd - pd < 0), if_neg (by omega : ¬ cd - pd > 0)]

/-- C3, witness: with no storm phrase, danger 2 after 5 yields improving. -/
theorem C3_witness :
    SaveToSupabase.calculate_trend 2 2 (some 5) (some 2)
        (str "quiet weather ahead") (str "") = str "improving" :=
  (C3_danger_delta_priority 2 2 5 (str "quiet weather ahead") (str "")
      (by decide)).1 (some 2) (by decide)

/-- C5: the aggregate observation-trend function returns insufficient_data
for fewer than 3 points; with 3 or more points it compares the first-half
and second-half sums of the counts (split at half the length, rounded down)
against the 1.5x threshold, returning increasing, decreasing, or stable; and
the counts 1,1,1,5,6 yield increasing (first-half sum 2, second-half sum 12). -/
theorem C5_aggregate_trend :
    (∀ dc : List (Str × Nat), dc.length < 3 →
        CbacScraper.calculate_trend dc = str "insufficient_data") ∧
    (∀ dc : List (Str × Nat), 3 ≤ dc.length →
        (2 * ((dc.map Prod.snd).drop (dc.length / 2)).sum >
            3 * ((dc.map Prod.snd).take (dc.length / 2)).sum →
          CbacScraper.calculate_trend dc = str "increasing") ∧
        (2 * ((dc.map Prod.snd).take (dc.length / 2)).sum >
            3 * ((dc.map Prod.snd).drop (dc.length / 2)).sum →
          CbacScraper.calculate_trend dc = str "decreasing") ∧
        (¬ 2 * ((dc.map Prod.snd).drop (dc.length / 2)).sum >
            3 * ((dc.map Prod.snd).take (dc.length / 2)).sum →
          ¬ 2 * ((dc.map Prod.snd).take (dc.length / 2)).sum >
            3 * ((dc.map Prod.snd).drop (dc.length / 2)).sum →
          CbacScraper.calculate_trend dc = str "stable")) ∧
    CbacScraper.calculate_trend
        [(str "d1", 1), (str "d2", 1), (str "d3", 1), (str "d4", 5), (str "d5", 6)] =
      str "increasing" := by
  refine ⟨?_, ?_, by decide⟩
  · intro dc h
    simp only [CbacScraper.calculate_trend]
    rw [if_pos h]
  · intro dc h
    have hlen : (dc.map Prod.snd).length = dc.length := List.length_map dc Prod.snd
    refine ⟨?_, ?_, ?_⟩
    · intro hinc
      simp only [CbacScraper.calculate_trend, hlen]
      rw [if_neg (by omega : ¬ dc.length < 3), if_pos hinc]
    · intro hdec
      simp only [CbacScraper.calculate_trend, hlen]
      rw [if_neg (by omega : ¬ dc.length < 3), if_neg (by omega : ¬ 2 *
        ((dc.map Prod.snd).drop (dc.length / 2)).sum >
          3 * ((dc.map Prod.snd).take (dc.length / 2)).sum), if_pos hdec]
    · intro hni hnd
      simp only [CbacScraper.calculate_trend, hlen]
      rw [if_neg (by omega : ¬ dc.length < 3), if_neg hni, if_neg hnd]

theorem setCell_fst_map (r : Rose) (a e : Str) :
    (CbacApiScraper.setCell r a e).map Prod.fst = r.map Prod.fst := by
  induction r with
  | nil => rfl
  | cons p t ih =>
    simp only [CbacApiScraper.setCell, List.map_cons] at ih ⊢
    split_ifs <;> simp_all

theorem cell_set_fst_map (cell : List (Str × Bool)) (e : Str) :
    (cell.map (fun q => if q.1 = e then (q.1, true) else q)).map Prod.fst =
      cell.map Prod.fst := by
  induction cell with
  | nil => rfl
  | cons q t ih =>
    simp only [List.map_cons] at ih ⊢
    split_ifs <;> simp_all

theorem setCell_mem_snd (r : Rose) (a e : Str) (pr : Str × List (Str × Bool))
    (h : pr ∈ CbacApiScraper.setCell r a e) :
    ∃ p ∈ r, pr.2.map Prod.fst = p.2.map Prod.fst := by
  simp only [CbacApiScraper.setCell, List.mem_map] at h
  obtain ⟨p, hp, rfl⟩ := h
  refine ⟨p, hp, ?_⟩
  split_ifs
  · exact cell_set_fst_map p.2 e
  · rfl

theorem setCell_shape (r : Rose) (a e : Str) (h : roseShape r) :
    roseShape (CbacApiScraper.setCell r a e) := by
  refine ⟨(setCell_fst_map r a e).trans h.1, fun pr hpr => ?_⟩
  obtain ⟨p, hp, heq⟩ := setCell_mem_snd r a e pr hpr
  rw [heq]
  exact h.2 p hp

theorem applyLocParts_shape (r : Rose) (ps : List Str) (h : roseShape r) :
    roseShape (CbacApiScraper.applyLocParts r ps) := by
  rcases ps with _ | ⟨a, _ | ⟨e, t⟩⟩
  · exact h
  · exact h
  · rw [CbacApiScraper.applyLocParts]
    rcases h1 : CbacApiScraper.ASPECT_MAP.lookup a with _ | asp <;>
      rcases h2 : CbacApiScraper.ELEVATION_MAP.lookup e with _ | elev <;>
      simp only [CbacApiScraper.applyLookup]
    · exact h
    · exact h
    · exact h
    · split_ifs with hx
      · exact setCell_shape r asp elev h
      · exact h

theorem applyLoc_shape (r : Rose) (loc : Str) (h : roseShape r) :
    roseShape (CbacApiScraper.applyLoc r loc) :=
  applyLocParts_shape r (CbacApiScraper.splitWs (lowerStr loc)) h

theorem parse_locations_shape_aux (locs : List Str) :
    ∀ r : Rose, roseShape r → roseShape (locs.foldl CbacApiScraper.applyLoc r) := by
  induction locs with
  | nil => intro r h; exact h
  | cons loc t ih => intro r h; exact ih _ (applyLoc_shape r loc h)

/-- C6: the rose produced from any list of location strings carries exactly
the 8 canonical aspect keys, each with exactly the three elevation keys; and
a malformed entry (fewer than two tokens, or an unrecognized aspect or
elevation word) leaves any rose unchanged. -/
theorem C6_rose_shape_and_skip :
    (∀ locations : List Str,
        roseShape (CbacApiScraper.parse_locations_to_rose locations)) ∧
      (∀ (rose : Rose) (loc : Str), CbacApiScraper.malformedLoc loc = true →
        CbacApiScraper.applyLoc rose loc = rose) := by
  constructor
  · intro locs
    exact parse_locations_shape_aux locs create_empty_rose ⟨by decide, by decide⟩
  · intro rose loc h
    unfold CbacApiScraper.applyLoc
    unfold CbacApiScraper.malformedLoc at h
    rcases hps : CbacApiScraper.splitWs (lowerStr loc) with _ | ⟨a, _ | ⟨e, t⟩⟩ <;>
      rw [hps] at h
    · rfl
    · rfl
    · rw [CbacApiScraper.malformedParts] at h
      rw [CbacApiScraper.applyLocParts]
      rcases h1 : CbacApiScraper.ASPECT_MAP.lookup a with _ | asp <;>
        rcases h2 : CbacApiScraper.ELEVATION_MAP.lookup e with _ | elev <;>
        simp_all [CbacApiScraper.applyLookup]

/-- C6, witness: a list with one well-formed and one malformed entry yields
a well-shaped rose, and the malformed entry alone is a no-op on the empty
rose. -/
theorem C6_witness :
    roseShape (CbacApiScraper.parse_locations_to_rose [str "north upper", str "junk"]) ∧
      CbacApiScraper.applyLoc create_empty_rose (str "junk") = create_empty_rose :=
  ⟨C6_rose_shape_and_skip.1 [str "north upper", str "junk"],
    C6_rose_shape_and_skip.2 create_empty_rose (str "junk") (by decide)⟩

theorem mem_problemsLoop (lines : List Str) (p : AvalancheProblem) :
    p ∈ CbacSeleniumScraper.problemsLoop lines →
    ∃ num g2 rest, p = CbacSeleniumScraper.buildProblem num g2 rest := by
  induction lines with
  | nil => intro h; simp [CbacSeleniumScraper.problemsLoop] at h
  | cons l rest ih =>
    intro h
    rw [CbacSeleniumScraper.problemsLoop] at h
    rcases hm : CbacSeleniumScraper.matchProblemHeader (stripStr l) with _ | ⟨num, g2⟩
    · rw [hm] at h
      exact ih h
    · rw [hm] at h
      rcases List.mem_cons.mp h with hh | hh
      · exact ⟨num, g2, rest, hh⟩
      · exact ih hh

theorem buildProblem_size (num : Nat) (g2 : Option Str) (rest : List Str) :
    (CbacSeleniumScraper.buildProblem num g2 rest).size = str "D2" := rfl

theorem buildProblem_details_le (num : Nat) (g2 : Option Str) (rest : List Str) (d : Str)
    (h : (CbacSeleniumScraper.buildProblem num g2 rest).details = some d) :
    d.length ≤ 1000 := by
  have h' : (if (CbacSeleniumScraper.detailsLoop (rest.take 49) false []).isEmpty then
      (none : Option Str)
      else some ((CbacSeleniumScraper.detailsLoop (rest.take 49) false []).take 1000)) =
        some d := h
  split at h'
  · cases h'
  · cases h'
    exact List.length_take_le _ _

/-- C7, counterexample: an API payload whose size list is ["6", "7"] makes
the parser emit "D6-7", which neither matches the spec's size pattern nor is
the default "D2" — the payload digits are interpolated unchecked. -/
theorem C7_counterexample :
    CbacApiScraper.apiSize (.strList [str "6", str "7"]) = str "D6-7" ∧
      sizeSpecOk (CbacApiScraper.apiSize (.strList [str "6", str "7"])) = false ∧
      CbacApiScraper.apiSize (.strList [str "6", str "7"]) ≠ str "D2" := by
  decide

/-- C7, amended: the text-parser path always emits exactly "D2" (which
satisfies the spec pattern); the API path satisfies the spec pattern
whenever the payload's size entries are single digits 1–5 in nondecreasing
order (or the size key is absent, a non-list, or a short list); and the
Playwright text path copies the raw regex match verbatim when one exists,
defaulting to "D2" otherwise. -/
theorem C7_size_amended :
    (∀ (text zone : Str) (p : AvalancheProblem),
        p ∈ (CbacSeleniumScraper.parse_page_text text zone).problems →
        p.size = str "D2" ∧ sizeSpecOk p.size = true) ∧
      (∀ sf : CbacApiScraper.SizeField, benignSizeField sf = true →
        sizeSpecOk (CbacApiScraper.apiSize sf) = true) ∧
      (∀ t m : Str, CbacScraper.searchSize t = some m →
        CbacScraper.sizeFromProblemText t = m) ∧
      (∀ t : Str, CbacScraper.searchSize t = none →
        CbacScraper.sizeFromProblemText t = str "D2") := by
  refine ⟨?_, ?_, ?_, ?_⟩
  · intro text zone p h
    obtain ⟨num, g2, rest, rfl⟩ :=
      mem_problemsLoop (splitLines text) p h
    refine ⟨buildProblem_size num g2 rest, ?_⟩
    rw [buildProblem_size num g2 rest]
    decide
  · intro sf h
    rcases sf with _ | _ | xs
    · decide
    · decide
    · rcases xs with _ | ⟨a, _ | ⟨b, t⟩⟩
      · exact (by decide : sizeSpecOk (str "D2") = true)
      · exact (by decide : sizeSpecOk (str "D2") = true)
      · rcases a with _ | ⟨c1, _ | ⟨c1b, t1⟩⟩ <;>
          rcases b with _ | ⟨c2, _ | ⟨c2b, t2⟩⟩ <;>
          simp_all [benignSizeField, CbacApiScraper.apiSize,
            CbacApiScraper.sizeFromList, sizeSpecOk, str]
  · intro t m h
    unfold CbacScraper.sizeFromProblemText
    rw [h]
    rfl
  · intro t h
    unfold CbacScraper.sizeFromProblemText
    rw [h]
    rfl

/-- C7, witness for the amended theorem: the problem produced from a
concrete problem block has size "D2"; a benign payload size pair yields a
conforming size; and a concrete problem text's raw match is copied. -/
theorem C7_witness :
    (CbacSeleniumScraper.buildProblem 1 (some (str "Persistent Slab")) [demoDetails]).size =
        str "D2" ∧
      sizeSpecOk (CbacApiScraper.apiSize (.strList [str "2", str "3"])) = true ∧
      CbacScraper.sizeFromProblemText (str "expect D2-D3 avalanches") = str "D2-D3" :=
  ⟨(C7_size_amended.1 demoProblemText (str "southeast")
      (CbacSeleniumScraper.buildProblem 1 (some (str "Persistent Slab")) [demoDetails])
      (by decide)).1,
    C7_size_amended.2.1 (.strList [str "2", str "3"]) (by decide),
    C7_size_amended.2.2.1 (str "expect D2-D3 avalanches") (str "D2-D3") (by decide)⟩

/-- C8, counterexample: on the API path a 1001-character media caption is
stored as the problem's details unchanged, exceeding the claimed
1000-character cap. -/
theorem C8_counterexample :
    CbacApiScraper.apiDetails (.dictWith (some longCaption)) = some longCaption ∧
      1000 < longCaption.length := by
  refine ⟨rfl, ?_⟩
  rw [longCaption, List.length_replicate]
  omega

/-- C8, amended: on the text-parser path every produced problem's details,
when present, are at most 1000 characters; on the API path the details are
the media caption passed through verbatim, with no length bound. -/
theorem C8_details_amended :
    (∀ (text zone : Str) (p : AvalancheProblem) (d : Str),
        p ∈ (CbacSeleniumScraper.parse_page_text text zone).problems →
        p.details = some d → d.length ≤ 1000) ∧
      (∀ cap : Str, CbacApiScraper.apiDetails (.dictWith (some cap)) = some cap) := by
  constructor
  · intro text zone p d h hd
    obtain ⟨num, g2, rest, rfl⟩ := mem_problemsLoop (splitLines text) p h
    exact buildProblem_details_le num g2 rest d hd
  · intro cap
    rfl

/-- C8, witness: the problem extracted from a concrete two-line problem
block has details of length at most 1000. -/
theorem C8_witness : demoDetails.length ≤ 1000 :=
  C8_details_amended.1 demoProblemText (str "southeast")
    (CbacSeleniumScraper.buildProblem 1 (some (str "Persistent Slab")) [demoDetails])
    demoDetails (by decide) (by decide)

/-- C9: the text-parsing extraction is a total function — for every input
text and zone it returns a Forecast record — and on the empty text every
field degrades to its documented default: dangers 2/2/1, placeholder
bottom line and discussion, no problems, no weather. -/
theorem C9_total_extraction :
    (∀ text zone : Str, ∃ F : CbacSeleniumScraper.Forecast,
        CbacSeleniumScraper.parse_page_text text zone = F) ∧
      CbacSeleniumScraper.parse_page_text [] [] =
        { zone := [], zone_name := str "Southeast Mountains", danger_alpine := 2,
          danger_treeline := 2, danger_below_treeline := 1,
          bottom_line := str "Visit CBAC website for forecast summary.",
          discussion := str "Visit CBAC website for full forecast discussion.",
          problems := [], weather := none } :=
  ⟨fun text zone => ⟨CbacSeleniumScraper.parse_page_text text zone, rfl⟩, by decide⟩

/-- C10: when no bottom-line (resp. discussion) text is extracted the
returned forecast carries the fixed placeholder; otherwise it carries the
extracted text; and in both cases the two fields are never the empty
string. -/
theorem C10_placeholders :
    ∀ text zone : Str,
      ((CbacSeleniumScraper.extractBottomLine (splitLines text)).isEmpty = true →
        (CbacSeleniumScraper.parse_page_text text zone).bottom_line =
          str "Visit CBAC website for forecast summary.") ∧
      ((CbacSeleniumScraper.extractBottomLine (splitLines text)).isEmpty = false →
        (CbacSeleniumScraper.parse_page_text text zone).bottom_line =
          CbacSeleniumScraper.extractBottomLine (splitLines text)) ∧
      ((CbacSeleniumScraper.extractDiscussion (splitLines text)).isEmpty = true →
        (CbacSeleniumScraper.parse_page_text text zone).discussion =
          str "Visit CBAC website for full forecast discussion.") ∧
      ((CbacSeleniumScraper.extractDiscussion (splitLines text)).isEmpty = false →
        (CbacSeleniumScraper.parse_page_text text zone).discussion =
          CbacSeleniumScraper.extractDiscussion (splitLines text)) ∧
      (CbacSeleniumScraper.parse_page_text text zone).bottom_line ≠ [] ∧
      (CbacSeleniumScraper.parse_page_text text zone).discussion ≠ [] := by
  intro text zone
  cases hb : (CbacSeleniumScraper.extractBottomLine (splitLines text)).isEmpty <;>
    cases hd : (CbacSeleniumScraper.extractDiscussion (splitLines text)).isEmpty <;>
    refine ⟨?_, ?_, ?_, ?_, ?_, ?_⟩ <;>
    simp_all [CbacSeleniumScraper.parse_page_text, List.isEmpty_iff] <;>
    decide

/-- C10, witness: the empty text extracts nothing, so both placeholders
appear. -/
theorem C10_witness :
    (CbacSeleniumScraper.parse_page_text [] []).bottom_line =
      str "Visit CBAC website for forecast summary." :=
  (C10_placeholders [] []).1 rfl

/-- C5, witness: a two-point list is insufficient, and a concrete 4-point
list with equal halves is stable. -/
theorem C5_witness :
    CbacScraper.calculate_trend [(str "d1", 1), (str "d2", 9)] = str "insufficient_data" ∧
      CbacScraper.calculate_trend
          [(str "d1", 2), (str "d2", 2), (str "d3", 2), (str "d4", 2)] = str "stable" :=
  ⟨C5_aggregate_trend.1 [(str "d1", 1), (str "d2", 9)] (by decide),
    ((C5_aggregate_trend.2.1
        [(str "d1", 2), (str "d2", 2), (str "d3", 2), (str "d4", 2)]
        (by decide)).2.2 (by decide) (by decide))⟩

end Skintrack
